import Mathlib

/-!
# Credit-ledger verification for the cv-builder repository

A shallow embedding of the credit ledger and billing subsystem:
the `credit_grants` / `credit_spends` tables, the spend authorizer
(`try_spend` in `App.py`, `spend_credits` in `App.py`), the balance
calculator (`get_credits_by_user_id` / `get_user_credits_ledger` in
`App.py`), the idempotent grant issuer (`insert_credit_grant` in
`webhook/server.py`, `grant_starter_credits` and `apply_referral_bonus`
in `auth.py`), the webhook deduplicator (`mark_event_processed` in
`webhook/server.py`) and the checkout branch of the Stripe webhook
handler.

The database is modelled as explicit lists of rows; each SQL statement
becomes a pure function from the database state to a result together
with the next state.  Timestamps are integers; `NOW()` is a field of
the state.  The `UNIQUE(source)` constraint on `credit_grants` and the
primary key on `stripe_events` (both required by the SQL in
`webhook/server.py`) are modelled by the conflict checks inside the
insert operations, exactly where the SQL uses `ON CONFLICT ... DO
NOTHING` or relies on the insert failing.
-/

namespace CvBuilder

/-- A row of `credit_grants` (immutable credit issuance; `source` is the
idempotency key, `expires_at` is `NULL` or a timestamp). -/
structure CreditGrant where
  user_id : Nat
  source : String
  cv_amount : Int
  ai_amount : Int
  expires_at : Option Int
deriving Repr, DecidableEq

/-- A row of `credit_spends` (immutable credit consumption). -/
structure CreditSpend where
  user_id : Nat
  source : String
  cv_amount : Int
  ai_amount : Int
deriving Repr, DecidableEq

/-- The fields of a `users` row that the ledger subsystem touches. -/
structure UserRow where
  id : Nat
  email : String
  referral_code : String
  referred_by : Option String
  referrals_count : Int
deriving Repr, DecidableEq

/-- The database state seen by the ledger: the three append-only tables,
the `users` table, and the clock used for `NOW()`. -/
structure DB where
  users : List UserRow
  credit_grants : List CreditGrant
  credit_spends : List CreditSpend
  stripe_events : List String
  now : Int
deriving Repr, DecidableEq

/-- `expires_at IS NULL OR expires_at > NOW()`. -/
def unexpired (now : Int) (g : CreditGrant) : Bool :=
  match g.expires_at with
  | none => true
  | some t => now < t

/-- `SELECT SUM(cv_amount) FROM credit_grants WHERE user_id=? AND
(expires_at IS NULL OR expires_at > NOW())`, with `COALESCE(..., 0)`. -/
def cvGrantSum (db : DB) (uid : Nat) : Int :=
  ((db.credit_grants.filter (fun g => g.user_id == uid && unexpired db.now g)).map
    (fun g => g.cv_amount)).sum

/-- The `ai_amount` analogue of `cvGrantSum`. -/
def aiGrantSum (db : DB) (uid : Nat) : Int :=
  ((db.credit_grants.filter (fun g => g.user_id == uid && unexpired db.now g)).map
    (fun g => g.ai_amount)).sum

/-- `SELECT SUM(cv_amount) FROM credit_spends WHERE user_id=?`, with
`COALESCE(..., 0)`. -/
def cvSpendSum (db : DB) (uid : Nat) : Int :=
  ((db.credit_spends.filter (fun s => s.user_id == uid)).map (fun s => s.cv_amount)).sum

/-- The `ai_amount` analogue of `cvSpendSum`. -/
def aiSpendSum (db : DB) (uid : Nat) : Int :=
  ((db.credit_spends.filter (fun s => s.user_id == uid)).map (fun s => s.ai_amount)).sum

/-- Unexpired cv grants minus all cv spends (the argument of `GREATEST`). -/
def cvDiff (db : DB) (uid : Nat) : Int := cvGrantSum db uid - cvSpendSum db uid

/-- Unexpired ai grants minus all ai spends (the argument of `GREATEST`). -/
def aiDiff (db : DB) (uid : Nat) : Int := aiGrantSum db uid - aiSpendSum db uid

/-- `get_credits_by_user_id` (`App.py` lines 209-230): one `SELECT`
returning `GREATEST(grants - spends, 0)` for each kind. -/
def get_credits_by_user_id (db : DB) (uid : Nat) : Int × Int :=
  (max (cvDiff db uid) 0, max (aiDiff db uid) 0)

/-- `get_user_credits_ledger` (`App.py` lines 814-859): the same SQL as
`get_credits_by_user_id`, executed on the caller's connection. -/
def get_user_credits_ledger (db : DB) (uid : Nat) : Int × Int :=
  (max (cvDiff db uid) 0, max (aiDiff db uid) 0)

/-- `SELECT id FROM users WHERE id=? FOR UPDATE` followed by `fetchone()`:
whether the user row exists. -/
def userExists (db : DB) (uid : Nat) : Bool :=
  db.users.any (fun u => u.id == uid)

/-- `try_spend` (`App.py` lines 275-300): lock the user row (absent row
means `False`), recompute the balance, refuse when a strictly positive
requested amount exceeds the corresponding balance, otherwise insert one
`credit_spends` row and commit. -/
def try_spend (db : DB) (user_id : Nat) (source : String) (cv : Int) (ai : Int) :
    Bool × DB :=
  if userExists db user_id then
    let bal := get_credits_by_user_id db user_id
    if cv > 0 ∧ bal.1 < cv then (false, db)
    else if ai > 0 ∧ bal.2 < ai then (false, db)
    else
      (true, { db with credit_spends := db.credit_spends ++ [⟨user_id, source, cv, ai⟩] })
  else (false, db)

/-- `sourceExists db s` : whether a `credit_grants` row with this `source`
already exists (the `UNIQUE(source)` conflict test). -/
def sourceExists (db : DB) (s : String) : Bool :=
  db.credit_grants.any (fun g => g.source == s)

/-- Number of `credit_grants` rows carrying a given `source`. -/
def sourceCount (db : DB) (s : String) : Nat :=
  (db.credit_grants.filter (fun g => g.source == s)).length

/-- `insert_credit_grant` (`webhook/server.py` lines 126-154):
`INSERT ... ON CONFLICT (source) DO NOTHING RETURNING id`; the returned
boolean is whether a row actually got inserted. -/
def insert_credit_grant (db : DB) (user_id : Nat) (source : String)
    (cv_amount ai_amount : Int) (expires_at : Option Int) : Bool × DB :=
  if sourceExists db source then (false, db)
  else
    (true, { db with credit_grants :=
      db.credit_grants ++ [⟨user_id, source, cv_amount, ai_amount, expires_at⟩] })

/-- `mark_event_processed` (`webhook/server.py` lines 38-49): insert the
event id into `stripe_events` (primary key `event_id`); a conflict makes
the insert raise, which the function turns into `False` after a rollback. -/
def mark_event_processed (db : DB) (event_id : String) : Bool × DB :=
  if db.stripe_events.contains event_id then (false, db)
  else (true, { db with stripe_events := db.stripe_events ++ [event_id] })

/-- Python's `str.lower()` for the ASCII strings the ledger handles,
written over the character list so that concrete instances compute. -/
def pyLower (s : String) : String := ⟨s.data.map Char.toLower⟩

/-- Python's `str.upper()` (ASCII), over the character list. -/
def pyUpper (s : String) : String := ⟨s.data.map Char.toUpper⟩

/-- Python's `str.strip()` over a character list: remove leading and
trailing whitespace. -/
def stripL (d : List Char) : List Char :=
  ((d.dropWhile Char.isWhitespace).reverse.dropWhile Char.isWhitespace).reverse

/-- Python's `str.strip()`: remove leading and trailing whitespace. -/
def pyStrip (s : String) : String :=
  ⟨stripL s.data⟩

/-- `REFERRAL_CAP` (`auth.py` line 12). -/
def REFERRAL_CAP : Int := 10

/-- `BONUS_PER_REFERRAL_CV` (`auth.py` line 13). -/
def BONUS_PER_REFERRAL_CV : Int := 5

/-- `BONUS_PER_REFERRAL_AI` (`auth.py` line 14). -/
def BONUS_PER_REFERRAL_AI : Int := 5

/-- `STARTER_CV` (`auth.py` line 16). -/
def STARTER_CV : Int := 5

/-- `STARTER_AI` (`auth.py` line 17). -/
def STARTER_AI : Int := 5

/-- Python truthiness of a nullable text column: `NULL` and the empty
string are falsy (`if not referred_by:` in `auth.py`). -/
def textFalsy : Option String → Bool
  | none => true
  | some s => s == ""

/-- `UPDATE users SET referred_by=? WHERE id=?`. -/
def stampReferredBy (db : DB) (uid : Nat) (code : String) : DB :=
  { db with users :=
      db.users.map (fun u => if u.id == uid then { u with referred_by := some code } else u) }

/-- `UPDATE users SET referrals_count = COALESCE(referrals_count,0) + 1
WHERE id=?`. -/
def incrReferralsCount (db : DB) (uid : Nat) : DB :=
  { db with users :=
      db.users.map (fun u =>
        if u.id == uid then { u with referrals_count := u.referrals_count + 1 } else u) }

/-- `apply_referral_bonus` (`auth.py` lines 795-881): look up the referee
by e-mail and the referrer by referral code, stamp `referred_by` when it
is still unset, enforce the referral cap, then pay the referrer through
an idempotent `credit_grants` insert keyed `referral_bonus:<referee_id>`
and increment `referrals_count` only when the row was actually new. -/
def apply_referral_bonus (db : DB) (new_user_email referral_code : String) :
    Bool × DB :=
  let email := pyLower (pyStrip new_user_email)
  let code := pyUpper (pyStrip referral_code)
  if email == "" || code == "" then (false, db)
  else
    match db.users.find? (fun u => pyLower u.email == email) with
    | none => (false, db)
    | some referee =>
      match db.users.find? (fun u => pyUpper u.referral_code == code) with
      | none => (false, db)
      | some referrer =>
        let db1 := if textFalsy referee.referred_by then stampReferredBy db referee.id code else db
        if REFERRAL_CAP ≤ referrer.referrals_count then (false, db1)
        else
          let src := "referral_bonus:" ++ toString referee.id
          if sourceExists db1 src then (false, db1)
          else
            let db2 := { db1 with credit_grants :=
              db1.credit_grants ++
                [⟨referrer.id, src, BONUS_PER_REFERRAL_CV, BONUS_PER_REFERRAL_AI, none⟩] }
            (true, incrReferralsCount db2 referrer.id)

/-- The per-user starter idempotency key `starter_grant:<user_id>`
(`auth.py` line 893). -/
def starterSource (uid : Nat) : String :=
  "starter_grant:" ++ toString uid

/-- `grant_starter_credits` (`auth.py` lines 887-933): one
`INSERT ... ON CONFLICT (source) DO NOTHING` of the starter grant keyed
by `starter_grant:<user_id>`; returns whether the row was new. -/
def grant_starter_credits (db : DB) (user_id : Nat) : Bool × DB :=
  if sourceExists db (starterSource user_id) then (false, db)
  else
    (true, { db with credit_grants :=
      db.credit_grants ++ [⟨user_id, starterSource user_id, STARTER_CV, STARTER_AI, none⟩] })

/-- The exception a failing database call raises (connection loss,
deadlock, ...), at the Lean level. -/
inductive LedgerError where
  | dbFailure
deriving Repr, DecidableEq

/-- `spend_credits` (`App.py` lines 773-810) with an injectable database
failure at the `INSERT` statement: every failure path before the insert
rolls back and returns `False`; an exception inside the transaction is
caught by `except Exception: conn.rollback(); raise`, so it propagates
(`Except.error`) with the state rolled back. -/
def spend_credits_faulty (db : DB) (user_id : Nat) (source : String)
    (cv_amount ai_amount : Int) (failAtInsert : Bool) :
    Except LedgerError (Bool × DB) :=
  if userExists db user_id then
    let bal := get_user_credits_ledger db user_id
    if cv_amount > 0 ∧ bal.1 < cv_amount then .ok (false, db)
    else if ai_amount > 0 ∧ bal.2 < ai_amount then .ok (false, db)
    else if failAtInsert then .error .dbFailure
    else
      .ok (true, { db with credit_spends :=
        db.credit_spends ++ [⟨user_id, source, cv_amount, ai_amount⟩] })
  else .ok (false, db)

/-- `mark_event_processed` with an injectable database failure at the
`INSERT`: the code wraps the insert in `try ... except Exception:
conn.rollback(); return False`, so a duplicate key and a genuine
database failure are both converted into the boolean `False`; nothing
ever propagates. -/
def mark_event_processed_faulty (db : DB) (event_id : String) (failAtInsert : Bool) :
    Bool × DB :=
  if failAtInsert || db.stripe_events.contains event_id then (false, db)
  else (true, { db with stripe_events := db.stripe_events ++ [event_id] })

/-- `apply_referral_bonus` (`auth.py`) with an injectable database
failure at the grant `INSERT`: the whole body sits under
`except Exception: conn.rollback(); print(...); return False`, so the
failure is rolled back (the `referred_by` stamp included) and converted
into the boolean `False`; nothing ever propagates. -/
def apply_referral_bonus_faulty (db : DB) (new_user_email referral_code : String)
    (failAtGrantInsert : Bool) : Bool × DB :=
  let email := pyLower (pyStrip new_user_email)
  let code := pyUpper (pyStrip referral_code)
  if email == "" || code == "" then (false, db)
  else
    match db.users.find? (fun u => pyLower u.email == email) with
    | none => (false, db)
    | some referee =>
      match db.users.find? (fun u => pyUpper u.referral_code == code) with
      | none => (false, db)
      | some referrer =>
        let db1 := if textFalsy referee.referred_by then stampReferredBy db referee.id code else db
        if REFERRAL_CAP ≤ referrer.referrals_count then (false, db1)
        else if failAtGrantInsert then (false, db)
        else
          let src := "referral_bonus:" ++ toString referee.id
          if sourceExists db1 src then (false, db1)
          else
            let db2 := { db1 with credit_grants :=
              db1.credit_grants ++
                [⟨referrer.id, src, BONUS_PER_REFERRAL_CV, BONUS_PER_REFERRAL_AI, none⟩] }
            (true, incrReferralsCount db2 referrer.id)

/-- `credits_for_plan` (`webhook/server.py` lines 52-58). -/
def credits_for_plan (plan : String) : Int × Int :=
  let p := pyLower (pyStrip plan)
  if p == "monthly" then (20, 30)
  else if p == "pro" then (50, 90)
  else (0, 0)

/-- Modelled from the spec: `get_or_create_user_id` is called by the
`checkout.session.completed` branch of `stripe_webhook`
(`webhook/server.py` line 227) but is defined nowhere under `src/`.
Spec section 6 says the handler "resolves the paying customer's user
id"; modelled as the case-insensitive e-mail lookup the sibling
`find_user_id_by_email` performs (the create path is not exercised by
any claim). -/
def get_or_create_user_id (db : DB) (email : String) : Option Nat :=
  match db.users.find? (fun u => pyLower u.email == pyLower (pyStrip email)) with
  | some u => some u.id
  | none => none

/-- The HTTP response of `stripe_webhook`, reduced to the outcomes the
checkout branch can produce (all are status 200). -/
inductive WebhookResult where
  | duplicateIgnored
  | ignored (why : String)
  | checkoutGranted (inserted : Bool)
deriving Repr, DecidableEq

/-- The body of the `checkout.session.completed` branch of
`stripe_webhook` (`webhook/server.py` lines 208-263) for a session that
carries no subscription id: normalize the pack and e-mail from the
session metadata, bail out on a missing pack / e-mail / user, then
insert a grant keyed `stripe_checkout:<session_id>` with the amounts
`credits_for_plan` assigns to the pack.  With no subscription id there
is no Stripe fetch, `period_end` stays `None`, so `expires_at` is
`None` whatever `CREDIT_STACKING` says. -/
def checkout_body (db : DB) (session_id pack_meta email_meta : String) :
    WebhookResult × DB :=
  let pack := pyLower (pyStrip pack_meta)
  let email := pyLower (pyStrip email_meta)
  if pack == "" then (.ignored "missing_pack", db)
  else if email == "" then (.ignored "missing_email", db)
  else
    match get_or_create_user_id db email with
    | none => (.ignored "no_matching_user", db)
    | some uid =>
      let amounts := credits_for_plan pack
      let r := insert_credit_grant db uid ("stripe_checkout:" ++ session_id)
        amounts.1 amounts.2 none
      (.checkoutGranted r.1, r.2)

/-- `stripe_webhook` (`webhook/server.py` lines 179-263) for a
`checkout.session.completed` event with no subscription on the session:
`mark_event_processed` runs first when the event id is non-empty, and a
`False` from it short-circuits into the `duplicate_ignored` response. -/
def stripe_webhook_checkout (db : DB) (event_id session_id pack_meta email_meta : String) :
    WebhookResult × DB :=
  if event_id == "" then checkout_body db session_id pack_meta email_meta
  else
    let r := mark_event_processed db event_id
    if r.1 then checkout_body r.2 session_id pack_meta email_meta
    else (.duplicateIgnored, r.2)

/-- `n` sequential `try_spend` calls for one user, all with the same cv
amount `s` and ai amount `0` (the serialized execution the
`SELECT ... FOR UPDATE` row lock forces on concurrent callers); returns
the number of calls that returned `True` together with the final state. -/
def runSpends (uid : Nat) (src : String) (s : Int) : Nat → DB → Nat × DB
  | 0, db => (0, db)
  | n + 1, db =>
    let r := try_spend db uid src s 0
    let rest := runSpends uid src s n r.2
    ((if r.1 then 1 else 0) + rest.1, rest.2)

/-- `n` repeated `insert_credit_grant` calls with identical arguments
(retries of the same logical grant). -/
def grantIter (uid : Nat) (src : String) (cv ai : Int) (exp : Option Int) :
    Nat → DB → DB
  | 0, db => db
  | n + 1, db => grantIter uid src cv ai exp n (insert_credit_grant db uid src cv ai exp).2

/-- One delivery of a grant-bearing webhook event, as `stripe_webhook`
handles it: proceed to `insert_credit_grant` only when
`mark_event_processed` answered `True`. -/
def webhook_grant_step (eid : String) (uid : Nat) (src : String) (cv ai : Int)
    (db : DB) : DB :=
  let r := mark_event_processed db eid
  if r.1 then (insert_credit_grant r.2 uid src cv ai none).2 else r.2

/-- `n` deliveries of the same webhook event (a simulated retry storm). -/
def webhook_grant_iter (eid : String) (uid : Nat) (src : String) (cv ai : Int) :
    Nat → DB → DB
  | 0, db => db
  | n + 1, db => webhook_grant_iter eid uid src cv ai n (webhook_grant_step eid uid src cv ai db)

/-- The property-test scenario of spec section 8: one user (id 1) with a
single never-expiring grant of `B` cv credits and no spends yet. -/
def starterDB (B : Nat) : DB :=
  ⟨[⟨1, "u@example.com", "CODE1", none, 0⟩], [⟨1, "grant_1", (B : Int), 0, none⟩], [], [], 0⟩

/-- The state used to settle claim C6 concretely: user 1 is the referee
(e-mail `new@x.com`, not yet referred), user 2 the referrer (referral
code `BBBB`, zero referrals so far); the ledger is empty. -/
def C6db : DB :=
  ⟨[⟨1, "new@x.com", "AAAA", none, 0⟩, ⟨2, "ref@x.com", "BBBB", none, 0⟩], [], [], [], 0⟩

/-- Referential integrity of the ledger tables: every grant and spend
row references an existing user. -/
def refIntegrity (db : DB) : Prop :=
  (∀ g ∈ db.credit_grants, ∃ u ∈ db.users, u.id = g.user_id) ∧
  (∀ s ∈ db.credit_spends, ∃ u ∈ db.users, u.id = s.user_id)

/-! ## Structural lemmas about single-row inserts -/

theorem cvSpendSum_append (db : DB) (uid : Nat) (r : CreditSpend) :
    cvSpendSum { db with credit_spends := db.credit_spends ++ [r] } uid
      = cvSpendSum db uid + (if r.user_id == uid then r.cv_amount else 0) := by
  simp only [cvSpendSum, List.filter_append]
  split <;> simp_all [List.filter_cons]

theorem aiSpendSum_append (db : DB) (uid : Nat) (r : CreditSpend) :
    aiSpendSum { db with credit_spends := db.credit_spends ++ [r] } uid
      = aiSpendSum db uid + (if r.user_id == uid then r.ai_amount else 0) := by
  simp only [aiSpendSum, List.filter_append]
  split <;> simp_all [List.filter_cons]

theorem cvDiff_append_self (db : DB) (uid : Nat) (src : String) (cv ai : Int) :
    cvDiff { db with credit_spends := db.credit_spends ++ [⟨uid, src, cv, ai⟩] } uid
      = cvDiff db uid - cv := by
  have h := cvSpendSum_append db uid ⟨uid, src, cv, ai⟩
  simp only [cvDiff, cvGrantSum] at *
  simp [h]
  ring

theorem aiDiff_append_self (db : DB) (uid : Nat) (src : String) (cv ai : Int) :
    aiDiff { db with credit_spends := db.credit_spends ++ [⟨uid, src, cv, ai⟩] } uid
      = aiDiff db uid - ai := by
  have h := aiSpendSum_append db uid ⟨uid, src, cv, ai⟩
  simp only [aiDiff, aiGrantSum] at *
  simp [h]
  ring

theorem userExists_spends_update (db : DB) (uid : Nat) (l : List CreditSpend) :
    userExists { db with credit_spends := l } uid = userExists db uid := rfl

theorem cvGrantSum_spends_update (db : DB) (uid : Nat) (l : List CreditSpend) :
    cvGrantSum { db with credit_spends := l } uid = cvGrantSum db uid := rfl

/-! ## Characterization of `try_spend` -/

theorem try_spend_success (db : DB) (uid : Nat) (src : String) (cv ai : Int)
    (hu : userExists db uid = true)
    (hcv : cv ≤ (get_credits_by_user_id db uid).1)
    (hai : ai ≤ (get_credits_by_user_id db uid).2) :
    try_spend db uid src cv ai
      = (true, { db with credit_spends := db.credit_spends ++ [⟨uid, src, cv, ai⟩] }) := by
  have h1 : ¬(cv > 0 ∧ (get_credits_by_user_id db uid).1 < cv) :=
    fun h => absurd hcv (not_le.mpr h.2)
  have h2 : ¬(ai > 0 ∧ (get_credits_by_user_id db uid).2 < ai) :=
    fun h => absurd hai (not_le.mpr h.2)
  simp only [try_spend, hu, if_true, h1, h2, if_false, ite_false, ite_true]

theorem try_spend_no_user (db : DB) (uid : Nat) (src : String) (cv ai : Int)
    (hu : userExists db uid = false) :
    try_spend db uid src cv ai = (false, db) := by
  simp [try_spend, hu]

theorem try_spend_insufficient (db : DB) (uid : Nat) (src : String) (cv ai : Int)
    (hu : userExists db uid = true)
    (h : (get_credits_by_user_id db uid).1 < cv ∨ (get_credits_by_user_id db uid).2 < ai) :
    try_spend db uid src cv ai = (false, db) := by
  simp only [try_spend, hu, if_true]
  rcases h with h | h
  · have hcv : 0 < cv := lt_of_le_of_lt (le_max_right _ 0) h
    rw [if_pos ⟨hcv, h⟩]
  · by_cases h1 : cv > 0 ∧ (get_credits_by_user_id db uid).1 < cv
    · rw [if_pos h1]
    · have hai : 0 < ai := lt_of_le_of_lt (le_max_right _ 0) h
      rw [if_neg h1, if_pos ⟨hai, h⟩]

/-! ## Claim C2 -/

/-- Claim C2: for every existing user, non-empty source and non-negative
amounts, `try_spend` returns `True` and inserts exactly one
`credit_spends` row covering both amounts when both requested amounts
fit in the balance; it returns `False` with the state unchanged (no
partial spend) when the user row is missing or either requested amount
exceeds the corresponding balance. -/
theorem C2_spend_authorizer_contract (db : DB) (uid : Nat) (src : String) (cv ai : Int)
    (hsrc : src ≠ "") (hcv : 0 ≤ cv) (hai : 0 ≤ ai) :
    (userExists db uid = true →
      cv ≤ (get_credits_by_user_id db uid).1 →
      ai ≤ (get_credits_by_user_id db uid).2 →
      try_spend db uid src cv ai
        = (true, { db with credit_spends := db.credit_spends ++ [⟨uid, src, cv, ai⟩] }))
    ∧ (userExists db uid = false → try_spend db uid src cv ai = (false, db))
    ∧ (userExists db uid = true →
        ((get_credits_by_user_id db uid).1 < cv ∨ (get_credits_by_user_id db uid).2 < ai) →
        try_spend db uid src cv ai = (false, db)) :=
  ⟨fun hu h1 h2 => try_spend_success db uid src cv ai hu h1 h2,
   fun hu => try_spend_no_user db uid src cv ai hu,
   fun hu h => try_spend_insufficient db uid src cv ai hu h⟩

/-- Witness for C2 at a concrete state: user 1 of `starterDB 5` holds 5
cv credits, so spending 1 cv credit succeeds and appends the one row. -/
theorem C2_spend_authorizer_contract_witness :
    ("cv_generate" ≠ "" ∧ (0 : Int) ≤ 1 ∧ (0 : Int) ≤ 0) ∧
    userExists (starterDB 5) 1 = true ∧
    try_spend (starterDB 5) 1 "cv_generate" 1 0
      = (true, { starterDB 5 with credit_spends :=
          (starterDB 5).credit_spends ++ [⟨1, "cv_generate", 1, 0⟩] }) :=
  ⟨⟨by decide, by decide, by decide⟩, by decide,
   (C2_spend_authorizer_contract (starterDB 5) 1 "cv_generate" 1 0
      (by decide) (by decide) (by decide)).1 (by decide) (by decide) (by decide)⟩

/-! ## Claim C9 -/

/-- Claim C9 (implicit): `try_spend` only applies its insufficient-balance
check to a strictly positive amount, so for an existing user a call with
`cv = 0` and `ai = 0` returns `True` and inserts a spend row regardless
of the balance, a call with a negative cv amount also returns `True`,
and that negative spend raises the derived balance. -/
theorem C9_zero_and_negative_spends (db : DB) (uid : Nat) (src : String)
    (hu : userExists db uid = true) :
    try_spend db uid src 0 0
      = (true, { db with credit_spends := db.credit_spends ++ [⟨uid, src, 0, 0⟩] })
    ∧ (∀ c : Int, c < 0 →
        try_spend db uid src c 0
          = (true, { db with credit_spends := db.credit_spends ++ [⟨uid, src, c, 0⟩] }))
    ∧ (∀ c : Int, c < 0 → 0 ≤ cvDiff db uid →
        (get_credits_by_user_id db uid).1
          < (get_credits_by_user_id (try_spend db uid src c 0).2 uid).1) := by
  have hneg : ∀ c : Int, c < 0 →
      try_spend db uid src c 0
        = (true, { db with credit_spends := db.credit_spends ++ [⟨uid, src, c, 0⟩] }) := by
    intro c hc
    have h1 : ¬(c > 0 ∧ (get_credits_by_user_id db uid).1 < c) :=
      fun h => absurd h.1 (not_lt.mpr hc.le)
    have h2 : ¬((0 : Int) > 0 ∧ (get_credits_by_user_id db uid).2 < 0) :=
      fun h => lt_irrefl 0 h.1
    simp only [try_spend, hu, if_true, h1, h2, ite_false]
  refine ⟨try_spend_success db uid src 0 0 hu (le_max_right _ 0) (le_max_right _ 0),
    hneg, ?_⟩
  intro c hc hd
  rw [hneg c hc]
  have hdiff := cvDiff_append_self db uid src c 0
  simp only [get_credits_by_user_id, hdiff]
  rw [max_eq_left hd, max_eq_left (by linarith)]
  linarith

/-- Witness for C9 at a concrete state: user 1 of `starterDB 0` holds no
credits at all, yet spending `-1` cv credits succeeds and lifts the cv
balance from 0 to 1. -/
theorem C9_zero_and_negative_spends_witness :
    userExists (starterDB 0) 1 = true ∧ (-1 : Int) < 0 ∧
    try_spend (starterDB 0) 1 "cv_generate" (-1) 0
      = (true, { starterDB 0 with credit_spends :=
          (starterDB 0).credit_spends ++ [⟨1, "cv_generate", -1, 0⟩] }) :=
  ⟨by decide, by decide,
   (C9_zero_and_negative_spends (starterDB 0) 1 "cv_generate" (by decide)).2.1
     (-1) (by decide)⟩

/-! ## Claim C5 -/

/-- Claim C5: the balance calculator returns, for each kind,
`max 0 (unexpired grants - all spends)`, never returns a negative
number, and returns zero balances instead of failing for a user id that
does not exist (given referential integrity of the ledger rows).  In
the model it is a pure function, so the no-side-effect and
same-result-twice parts of the claim hold by construction. -/
theorem C5_balance_calculator (db : DB) (uid : Nat) :
    get_credits_by_user_id db uid
      = (max (cvGrantSum db uid - cvSpendSum db uid) 0,
         max (aiGrantSum db uid - aiSpendSum db uid) 0)
    ∧ 0 ≤ (get_credits_by_user_id db uid).1
    ∧ 0 ≤ (get_credits_by_user_id db uid).2
    ∧ ((∀ u ∈ db.users, u.id ≠ uid) → refIntegrity db →
        get_credits_by_user_id db uid = (0, 0)) := by
  refine ⟨rfl, le_max_right _ _, le_max_right _ _, ?_⟩
  rintro hno ⟨hg, hs⟩
  have hgf : db.credit_grants.filter (fun g => g.user_id == uid && unexpired db.now g)
      = [] := by
    rw [List.filter_eq_nil_iff]
    intro g hgmem
    obtain ⟨u, hu, hid⟩ := hg g hgmem
    have hne : g.user_id ≠ uid := fun h => hno u hu (hid.trans h)
    simp [hne]
  have hsf : db.credit_spends.filter (fun s => s.user_id == uid) = [] := by
    rw [List.filter_eq_nil_iff]
    intro r hrmem
    obtain ⟨u, hu, hid⟩ := hs r hrmem
    have hne : r.user_id ≠ uid := fun h => hno u hu (hid.trans h)
    simp [hne]
  simp [get_credits_by_user_id, cvDiff, aiDiff, cvGrantSum, aiGrantSum,
    cvSpendSum, aiSpendSum, hgf, hsf]

/-- Witness for C5 at a concrete state: user id 2 does not exist in
`starterDB 5`, whose rows all reference user 1, and the balance comes
out as zero for both kinds. -/
theorem C5_balance_calculator_witness :
    (∀ u ∈ (starterDB 5).users, u.id ≠ 2) ∧ refIntegrity (starterDB 5) ∧
    get_credits_by_user_id (starterDB 5) 2 = (0, 0) :=
  ⟨by decide, ⟨by decide, by decide⟩,
   (C5_balance_calculator (starterDB 5) 2).2.2.2 (by decide) ⟨by decide, by decide⟩⟩

/-! ## Claims C3 and C7: the idempotent grant issuer -/

theorem insert_credit_grant_dup (db : DB) (uid : Nat) (src : String) (cv ai : Int)
    (exp : Option Int) (h : sourceExists db src = true) :
    insert_credit_grant db uid src cv ai exp = (false, db) := by
  simp [insert_credit_grant, h]

theorem insert_credit_grant_fresh (db : DB) (uid : Nat) (src : String) (cv ai : Int)
    (exp : Option Int) (h : sourceExists db src = false) :
    insert_credit_grant db uid src cv ai exp
      = (true, { db with credit_grants := db.credit_grants ++ [⟨uid, src, cv, ai, exp⟩] }) := by
  simp [insert_credit_grant, h]

theorem sourceExists_append (db : DB) (g : CreditGrant) (s : String) :
    sourceExists { db with credit_grants := db.credit_grants ++ [g] } s
      = (sourceExists db s || g.source == s) := by
  simp [sourceExists]

theorem sourceCount_append (db : DB) (g : CreditGrant) (s : String) :
    sourceCount { db with credit_grants := db.credit_grants ++ [g] } s
      = sourceCount db s + (if g.source == s then 1 else 0) := by
  simp only [sourceCount, List.filter_append]
  split <;> simp_all [List.filter_cons]

theorem sourceCount_of_not_exists (db : DB) (s : String)
    (h : sourceExists db s = false) : sourceCount db s = 0 := by
  rw [sourceExists, List.any_eq_false] at h
  have : db.credit_grants.filter (fun g => g.source == s) = [] :=
    List.filter_eq_nil_iff.mpr h
  simp [sourceCount, this]

theorem grantIter_stable (uid : Nat) (src : String) (cv ai : Int) (exp : Option Int) :
    ∀ (n : Nat) (db : DB), sourceExists db src = true →
      grantIter uid src cv ai exp n db = db := by
  intro n
  induction n with
  | zero => intro db _; rfl
  | succ n ih =>
    intro db h
    simp only [grantIter, insert_credit_grant_dup db uid src cv ai exp h]
    exact ih db h

/-- Claim C3: a fresh `source` makes `insert_credit_grant` insert the row
and return `True`, leaving exactly one row with that source; any call
while the source exists (whatever the other arguments) is a no-op
returning `False`; hence any number `n + 1 ≥ 1` of retries converges to
the state after the first call, with exactly one row for the source. -/
theorem C3_grant_idempotent (db : DB) (uid : Nat) (src : String) (cv ai : Int)
    (exp : Option Int) (h0 : sourceExists db src = false) :
    (insert_credit_grant db uid src cv ai exp).1 = true
    ∧ sourceCount (insert_credit_grant db uid src cv ai exp).2 src = 1
    ∧ (∀ (db' : DB) (uid' : Nat) (cv' ai' : Int) (exp' : Option Int),
        sourceExists db' src = true →
        insert_credit_grant db' uid' src cv' ai' exp' = (false, db'))
    ∧ (∀ n : Nat, grantIter uid src cv ai exp (n + 1) db
        = (insert_credit_grant db uid src cv ai exp).2)
    ∧ (∀ n : Nat, sourceCount (grantIter uid src cv ai exp (n + 1) db) src = 1) := by
  have hfresh := insert_credit_grant_fresh db uid src cv ai exp h0
  have hcount : sourceCount (insert_credit_grant db uid src cv ai exp).2 src = 1 := by
    rw [hfresh, sourceCount_append, sourceCount_of_not_exists db src h0]
    simp
  have hdup : ∀ (db' : DB) (uid' : Nat) (cv' ai' : Int) (exp' : Option Int),
      sourceExists db' src = true →
      insert_credit_grant db' uid' src cv' ai' exp' = (false, db') :=
    fun db' uid' cv' ai' exp' h => insert_credit_grant_dup db' uid' src cv' ai' exp' h
  have hafter : sourceExists (insert_credit_grant db uid src cv ai exp).2 src = true := by
    rw [hfresh, sourceExists_append]
    simp
  have hiter : ∀ n : Nat, grantIter uid src cv ai exp (n + 1) db
      = (insert_credit_grant db uid src cv ai exp).2 := by
    intro n
    simp only [grantIter]
    exact grantIter_stable uid src cv ai exp n _ hafter
  refine ⟨by rw [hfresh], hcount, hdup, hiter, fun n => ?_⟩
  rw [hiter n]
  exact hcount

/-- Witness for C3 at a concrete state: granting with the fresh source
`"X"` on `starterDB 0` returns `True`, and three retries still leave one
row with that source. -/
theorem C3_grant_idempotent_witness :
    sourceExists (starterDB 0) "X" = false ∧
    (insert_credit_grant (starterDB 0) 1 "X" 5 5 none).1 = true ∧
    sourceCount (grantIter 1 "X" 5 5 none 3 (starterDB 0)) "X" = 1 :=
  ⟨by decide,
   (C3_grant_idempotent (starterDB 0) 1 "X" 5 5 none (by decide)).1,
   (C3_grant_idempotent (starterDB 0) 1 "X" 5 5 none (by decide)).2.2.2.2 2⟩

/-! ## Claim C4 -/

theorem mark_event_processed_dup (db : DB) (eid : String)
    (h : db.stripe_events.contains eid = true) :
    mark_event_processed db eid = (false, db) := by
  have h' : eid ∈ db.stripe_events := by simpa using h
  simp [mark_event_processed, h']

theorem mark_event_processed_fresh (db : DB) (eid : String)
    (h : db.stripe_events.contains eid = false) :
    mark_event_processed db eid
      = (true, { db with stripe_events := db.stripe_events ++ [eid] }) := by
  have h' : eid ∉ db.stripe_events := by simpa using h
  simp [mark_event_processed, h']

theorem webhook_step_stable (eid : String) (uid : Nat) (src : String) (cv ai : Int)
    (d : DB) (h : d.stripe_events.contains eid = true) :
    webhook_grant_step eid uid src cv ai d = d := by
  simp [webhook_grant_step, mark_event_processed_dup d eid h]

theorem webhook_step_contains (eid : String) (uid : Nat) (src : String) (cv ai : Int)
    (d : DB) : (webhook_grant_step eid uid src cv ai d).stripe_events.contains eid = true := by
  by_cases h : d.stripe_events.contains eid = true
  · rw [webhook_step_stable eid uid src cv ai d h]
    exact h
  · have hf : d.stripe_events.contains eid = false := by
      cases hc : d.stripe_events.contains eid
      · rfl
      · exact absurd hc h
    simp only [webhook_grant_step, mark_event_processed_fresh d eid hf]
    simp only [if_true]
    unfold insert_credit_grant
    split <;> simp

theorem webhook_iter_stable (eid : String) (uid : Nat) (src : String) (cv ai : Int) :
    ∀ (n : Nat) (d : DB), d.stripe_events.contains eid = true →
      webhook_grant_iter eid uid src cv ai n d = d := by
  intro n
  induction n with
  | zero => intro d _; rfl
  | succ n ih =>
    intro d h
    simp only [webhook_grant_iter, webhook_step_stable eid uid src cv ai d h]
    exact ih d h

/-- Claim C4: `mark_event_processed` answers `True` exactly on the first
call for an event id and `False` on every later one — two sequential
calls give `(True, False)` — and a handler that only grants on `True`
leaves the state of the first delivery unchanged under any number of
redeliveries, so it adds at most one grant row per event id. -/
theorem C4_webhook_dedup (db : DB) (eid : String) (uid : Nat) (src : String) (cv ai : Int)
    (h : db.stripe_events.contains eid = false) :
    (mark_event_processed db eid).1 = true
    ∧ (mark_event_processed (mark_event_processed db eid).2 eid).1 = false
    ∧ (∀ d : DB, d.stripe_events.contains eid = true →
        mark_event_processed d eid = (false, d))
    ∧ (∀ n : Nat, webhook_grant_iter eid uid src cv ai (n + 1) db
        = webhook_grant_step eid uid src cv ai db)
    ∧ (∀ n : Nat, sourceCount (webhook_grant_iter eid uid src cv ai n db) src
        ≤ sourceCount db src + 1) := by
  have hfresh := mark_event_processed_fresh db eid h
  have hsecond : (mark_event_processed (mark_event_processed db eid).2 eid).1 = false := by
    rw [hfresh]
    have : (({ db with stripe_events := db.stripe_events ++ [eid] } : DB)).stripe_events.contains
        eid = true := by simp
    rw [mark_event_processed_dup _ eid this]
  have hiter : ∀ n : Nat, webhook_grant_iter eid uid src cv ai (n + 1) db
      = webhook_grant_step eid uid src cv ai db := by
    intro n
    simp only [webhook_grant_iter]
    exact webhook_iter_stable eid uid src cv ai n _ (webhook_step_contains eid uid src cv ai db)
  have hstep : sourceCount (webhook_grant_step eid uid src cv ai db) src
      ≤ sourceCount db src + 1 := by
    simp only [webhook_grant_step, hfresh, if_true]
    by_cases hsx : sourceExists { db with stripe_events := db.stripe_events ++ [eid] } src = true
    · rw [insert_credit_grant_dup _ uid src cv ai none hsx]
      exact Nat.le_succ _
    · have hsf : sourceExists { db with stripe_events := db.stripe_events ++ [eid] } src
          = false := by
        cases hc : sourceExists { db with stripe_events := db.stripe_events ++ [eid] } src
        · rfl
        · exact absurd hc hsx
      rw [insert_credit_grant_fresh _ uid src cv ai none hsf, sourceCount_append]
      simp [sourceCount]
  refine ⟨by rw [hfresh], hsecond,
    fun d hd => mark_event_processed_dup d eid hd, hiter, fun n => ?_⟩
  cases n with
  | zero => exact Nat.le_succ_of_le (Nat.le_refl _)
  | succ n => rw [hiter n]; exact hstep

/-- Witness for C4 at a concrete state: delivering event `"evt_123"` to
the empty ledger answers `True` then `False`, and five deliveries of a
granting handler leave at most one `"stripe_invoice:inv_1"` row. -/
theorem C4_webhook_dedup_witness :
    ((starterDB 0).stripe_events.contains "evt_123" = false) ∧
    (mark_event_processed (starterDB 0) "evt_123").1 = true ∧
    (mark_event_processed (mark_event_processed (starterDB 0) "evt_123").2 "evt_123").1
      = false ∧
    sourceCount (webhook_grant_iter "evt_123" 1 "stripe_invoice:inv_1" 20 30 5 (starterDB 0))
      "stripe_invoice:inv_1" ≤ sourceCount (starterDB 0) "stripe_invoice:inv_1" + 1 :=
  ⟨by decide,
   (C4_webhook_dedup (starterDB 0) "evt_123" 1 "stripe_invoice:inv_1" 20 30 (by decide)).1,
   (C4_webhook_dedup (starterDB 0) "evt_123" 1 "stripe_invoice:inv_1" 20 30 (by decide)).2.1,
   (C4_webhook_dedup (starterDB 0) "evt_123" 1 "stripe_invoice:inv_1" 20 30 (by decide)).2.2.2.2 5⟩

/-! ## Claim C1: the serialized spend run

The `SELECT ... FOR UPDATE` row lock makes concurrent `try_spend` calls
for one user execute one after the other, each seeing the committed
state the previous one left (spec section 5); `runSpends` is that
serialized execution, and the theorems below count how many of the
calls can succeed. -/

theorem try_spend_step_succeeds (db : DB) (uid : Nat) (src : String) (s : Int)
    (hu : userExists db uid = true) (hd : s ≤ cvDiff db uid) :
    try_spend db uid src s 0
      = (true, { db with credit_spends := db.credit_spends ++ [⟨uid, src, s, 0⟩] }) :=
  try_spend_success db uid src s 0 hu (le_trans hd (le_max_left _ _)) (le_max_right _ 0)

theorem try_spend_step_fails (db : DB) (uid : Nat) (src : String) (s : Int)
    (hu : userExists db uid = true) (hs : 1 ≤ s) (hd : cvDiff db uid < s) :
    try_spend db uid src s 0 = (false, db) :=
  try_spend_insufficient db uid src s 0 hu (Or.inl (max_lt hd (by linarith)))

theorem runSpends_spec (uid : Nat) (src : String) (s : Int) (hs : 1 ≤ s) :
    ∀ (n : Nat) (db : DB), userExists db uid = true → 0 ≤ cvDiff db uid →
      (runSpends uid src s n db).1 = min n ((cvDiff db uid).toNat / s.toNat)
      ∧ 0 ≤ cvDiff (runSpends uid src s n db).2 uid
      ∧ cvGrantSum (runSpends uid src s n db).2 uid = cvGrantSum db uid
      ∧ userExists (runSpends uid src s n db).2 uid = true := by
  intro n
  induction n with
  | zero =>
    intro db hu hd
    exact ⟨by simp [runSpends], hd, rfl, hu⟩
  | succ n ih =>
    intro db hu hd
    by_cases hcase : s ≤ cvDiff db uid
    · have hstep := try_spend_step_succeeds db uid src s hu hcase
      have hdiff1 : cvDiff { db with credit_spends := db.credit_spends ++ [⟨uid, src, s, 0⟩] }
          uid = cvDiff db uid - s := cvDiff_append_self db uid src s 0
      have hu1 : userExists { db with credit_spends := db.credit_spends ++ [⟨uid, src, s, 0⟩] }
          uid = true := hu
      have hd1 : 0 ≤ cvDiff { db with credit_spends := db.credit_spends ++ [⟨uid, src, s, 0⟩] }
          uid := by rw [hdiff1]; linarith
      obtain ⟨hc, hd2, hg, hu2⟩ := ih _ hu1 hd1
      simp only [runSpends, hstep]
      refine ⟨?_, hd2, hg, hu2⟩
      rw [hc, hdiff1]
      have hspos : 0 < s.toNat := by omega
      have h1 : (cvDiff db uid).toNat = (cvDiff db uid - s).toNat + s.toNat := by omega
      rw [h1, Nat.add_div_right _ hspos, Nat.succ_min_succ]
      exact Nat.add_comm 1 _
    · push_neg at hcase
      have hstep := try_spend_step_fails db uid src s hu hs hcase
      obtain ⟨hc, hd2, hg, hu2⟩ := ih db hu hd
      simp only [runSpends, hstep]
      refine ⟨?_, hd2, hg, hu2⟩
      rw [hc]
      have hzero : (cvDiff db uid).toNat / s.toNat = 0 :=
        Nat.div_eq_of_lt (by omega)
      rw [hzero]
      simp

/-- Claim C1: with the row lock serializing the calls, `N` `try_spend`
calls of a fixed cv amount `s ≥ 1` against a starting balance of `B` cv
credits succeed exactly `B / s` times (never more) once `N ≥ B / s`, and
the total of the recorded spends never exceeds the total of the grants. -/
theorem C1_concurrent_spends_serialized (B s N : Nat) (hs : 1 ≤ s) (hN : B / s ≤ N) :
    (runSpends 1 "cv_generate" (s : Int) N (starterDB B)).1 = B / s
    ∧ cvSpendSum (runSpends 1 "cv_generate" (s : Int) N (starterDB B)).2 1
        ≤ cvGrantSum (runSpends 1 "cv_generate" (s : Int) N (starterDB B)).2 1 := by
  have hu : userExists (starterDB B) 1 = true := rfl
  have hdiff : cvDiff (starterDB B) 1 = (B : Int) := by
    simp [starterDB, cvDiff, cvGrantSum, cvSpendSum, unexpired]
  have hs' : (1 : Int) ≤ (s : Int) := by exact_mod_cast hs
  have hd0 : 0 ≤ cvDiff (starterDB B) 1 := by
    rw [hdiff]; exact Int.natCast_nonneg B
  obtain ⟨hc, hd, hg, _⟩ := runSpends_spec 1 "cv_generate" (s : Int) hs' N (starterDB B) hu hd0
  constructor
  · rw [hc, hdiff]
    have h1 : ((B : Int)).toNat = B := Int.toNat_natCast B
    have h2 : ((s : Nat) : Int).toNat = s := Int.toNat_natCast s
    rw [h1, h2]
    exact min_eq_right hN
  · have := hd
    rw [cvDiff] at this
    linarith

/-- Witness for C1: balance 5, spend amount 2, four serialized calls —
exactly `5 / 2 = 2` of them succeed and the ledger never overspends. -/
theorem C1_concurrent_spends_serialized_witness :
    1 ≤ 2 ∧ 5 / 2 ≤ 4 ∧
    ((runSpends 1 "cv_generate" ((2 : Nat) : Int) 4 (starterDB 5)).1 = 5 / 2
     ∧ cvSpendSum (runSpends 1 "cv_generate" ((2 : Nat) : Int) 4 (starterDB 5)).2 1
         ≤ cvGrantSum (runSpends 1 "cv_generate" ((2 : Nat) : Int) 4 (starterDB 5)).2 1) :=
  ⟨by decide, by decide, C1_concurrent_spends_serialized 5 2 4 (by decide) (by decide)⟩

/-! ## Claim C6: the referral payout engine -/

theorem sourceExists_stampReferredBy (db : DB) (uid : Nat) (code s : String) :
    sourceExists (stampReferredBy db uid code) s = sourceExists db s := rfl

theorem apply_referral_bonus_at_cap (db : DB) (e c : String) (referee referrer : UserRow)
    (he : (pyLower (pyStrip e) == "") = false)
    (hc : (pyUpper (pyStrip c) == "") = false)
    (hre : db.users.find? (fun u => pyLower u.email == pyLower (pyStrip e)) = some referee)
    (hrr : db.users.find? (fun u => pyUpper u.referral_code == pyUpper (pyStrip c))
      = some referrer)
    (hcap : REFERRAL_CAP ≤ referrer.referrals_count) :
    apply_referral_bonus db e c
      = (false, if textFalsy referee.referred_by
          then stampReferredBy db referee.id (pyUpper (pyStrip c)) else db) := by
  unfold apply_referral_bonus
  simp only [he, hc, Bool.or_self, Bool.false_eq_true, if_false, hre, hrr]
  rw [if_pos hcap]

theorem apply_referral_bonus_pays (db db1 : DB) (e c : String) (referee referrer : UserRow)
    (he : (pyLower (pyStrip e) == "") = false)
    (hc : (pyUpper (pyStrip c) == "") = false)
    (hre : db.users.find? (fun u => pyLower u.email == pyLower (pyStrip e)) = some referee)
    (hrr : db.users.find? (fun u => pyUpper u.referral_code == pyUpper (pyStrip c))
      = some referrer)
    (hdb1 : db1 = if textFalsy referee.referred_by
      then stampReferredBy db referee.id (pyUpper (pyStrip c)) else db)
    (hcap : referrer.referrals_count < REFERRAL_CAP)
    (hfresh : sourceExists db ("referral_bonus:" ++ toString referee.id) = false) :
    apply_referral_bonus db e c
      = (true, incrReferralsCount
          { db1 with credit_grants := db1.credit_grants ++
              [⟨referrer.id, "referral_bonus:" ++ toString referee.id,
                BONUS_PER_REFERRAL_CV, BONUS_PER_REFERRAL_AI, none⟩] }
          referrer.id) := by
  have hfresh1 : sourceExists db1 ("referral_bonus:" ++ toString referee.id) = false := by
    rw [hdb1]; split
    · exact hfresh
    · exact hfresh
  subst hdb1
  unfold apply_referral_bonus
  simp only [he, hc, Bool.or_self, Bool.false_eq_true, if_false, hre, hrr]
  rw [if_neg (not_le.mpr hcap)]
  simp only [hfresh1, Bool.false_eq_true, if_false]

theorem apply_referral_bonus_duplicate (db db1 : DB) (e c : String)
    (referee referrer : UserRow)
    (he : (pyLower (pyStrip e) == "") = false)
    (hc : (pyUpper (pyStrip c) == "") = false)
    (hre : db.users.find? (fun u => pyLower u.email == pyLower (pyStrip e)) = some referee)
    (hrr : db.users.find? (fun u => pyUpper u.referral_code == pyUpper (pyStrip c))
      = some referrer)
    (hdb1 : db1 = if textFalsy referee.referred_by
      then stampReferredBy db referee.id (pyUpper (pyStrip c)) else db)
    (hcap : referrer.referrals_count < REFERRAL_CAP)
    (hdup : sourceExists db ("referral_bonus:" ++ toString referee.id) = true) :
    apply_referral_bonus db e c = (false, db1) := by
  have hdup1 : sourceExists db1 ("referral_bonus:" ++ toString referee.id) = true := by
    rw [hdb1]; split
    · exact hdup
    · exact hdup
  subst hdb1
  unfold apply_referral_bonus
  simp only [he, hc, Bool.or_self, Bool.false_eq_true, if_false, hre, hrr]
  rw [if_neg (not_le.mpr hcap)]
  simp only [hdup1, if_true]

/-- Claim C6 counterexample: the claim says a duplicate
`apply_referral_bonus` call "returns the prior outcome", but on the
concrete state `C6db` the first call returns `True` while the repeated
call returns `False` — `inserted = (cur.rowcount == 1)` is `False` when
the grant row already exists, and that `inserted` is what the function
returns. -/
theorem C6_duplicate_call_cex :
    (apply_referral_bonus C6db "new@x.com" "BBBB").1 = true
    ∧ (apply_referral_bonus
        (apply_referral_bonus C6db "new@x.com" "BBBB").2 "new@x.com" "BBBB").1 = false := by
  decide

/-- Claim C6 as amended: when referee and referrer both exist, a call at
or above the referral cap returns `False`, issues no grant and still
stamps `referred_by` only when it was unset; below the cap with a fresh
referee key it appends exactly one grant row and increments the
referrer's count, returning `True`; a duplicate call (grant already
present) returns `False` — not the prior outcome — and leaves
everything except the one-time `referred_by` stamp unchanged. -/
theorem C6_referral_payout_amended (db db1 : DB) (e c : String)
    (referee referrer : UserRow)
    (he : (pyLower (pyStrip e) == "") = false)
    (hc : (pyUpper (pyStrip c) == "") = false)
    (hre : db.users.find? (fun u => pyLower u.email == pyLower (pyStrip e)) = some referee)
    (hrr : db.users.find? (fun u => pyUpper u.referral_code == pyUpper (pyStrip c))
      = some referrer)
    (hdb1 : db1 = if textFalsy referee.referred_by
      then stampReferredBy db referee.id (pyUpper (pyStrip c)) else db) :
    (REFERRAL_CAP ≤ referrer.referrals_count →
      apply_referral_bonus db e c = (false, db1))
    ∧ (referrer.referrals_count < REFERRAL_CAP →
        sourceExists db ("referral_bonus:" ++ toString referee.id) = false →
        apply_referral_bonus db e c
          = (true, incrReferralsCount
              { db1 with credit_grants := db1.credit_grants ++
                  [⟨referrer.id, "referral_bonus:" ++ toString referee.id,
                    BONUS_PER_REFERRAL_CV, BONUS_PER_REFERRAL_AI, none⟩] }
              referrer.id))
    ∧ (referrer.referrals_count < REFERRAL_CAP →
        sourceExists db ("referral_bonus:" ++ toString referee.id) = true →
        apply_referral_bonus db e c = (false, db1)) :=
  ⟨fun hcap => hdb1 ▸ apply_referral_bonus_at_cap db e c referee referrer he hc hre hrr hcap,
   fun hcap hfresh =>
     apply_referral_bonus_pays db db1 e c referee referrer he hc hre hrr hdb1 hcap hfresh,
   fun hcap hdup =>
     apply_referral_bonus_duplicate db db1 e c referee referrer he hc hre hrr hdb1 hcap hdup⟩

/-- Witness for the amended C6 on `C6db`: referrer 2 sits below the cap
and the referee key is fresh, so the call pays the referrer, appending
the one grant row and bumping the count to 1. -/
theorem C6_referral_payout_amended_witness :
    (C6db.users.find? (fun u => pyLower u.email == pyLower (pyStrip "new@x.com"))
      = some ⟨1, "new@x.com", "AAAA", none, 0⟩) ∧
    (C6db.users.find? (fun u => pyUpper u.referral_code == pyUpper (pyStrip "BBBB"))
      = some ⟨2, "ref@x.com", "BBBB", none, 0⟩) ∧
    ((0 : Int) < REFERRAL_CAP) ∧
    sourceExists C6db "referral_bonus:1" = false ∧
    apply_referral_bonus C6db "new@x.com" "BBBB"
      = (true, incrReferralsCount
          { stampReferredBy C6db 1 (pyUpper (pyStrip "BBBB")) with credit_grants :=
              (stampReferredBy C6db 1 (pyUpper (pyStrip "BBBB"))).credit_grants ++
                [⟨2, "referral_bonus:1",
                  BONUS_PER_REFERRAL_CV, BONUS_PER_REFERRAL_AI, none⟩] }
          2) :=
  ⟨by decide, by decide, by decide, by decide,
   (C6_referral_payout_amended C6db (stampReferredBy C6db 1 (pyUpper (pyStrip "BBBB")))
      "new@x.com" "BBBB" ⟨1, "new@x.com", "AAAA", none, 0⟩ ⟨2, "ref@x.com", "BBBB", none, 0⟩
      (by decide) (by decide) (by decide) (by decide) (by decide)).2.1
    (by decide) (by decide)⟩

/-! ## Claim C7: the starter grant -/

theorem grant_starter_credits_dup (db : DB) (uid : Nat)
    (h : sourceExists db (starterSource uid) = true) :
    grant_starter_credits db uid = (false, db) := by
  simp [grant_starter_credits, h]

theorem grant_starter_credits_fresh (db : DB) (uid : Nat)
    (h : sourceExists db (starterSource uid) = false) :
    grant_starter_credits db uid
      = (true, { db with credit_grants := db.credit_grants ++
          [⟨uid, starterSource uid, STARTER_CV, STARTER_AI, none⟩] }) := by
  simp [grant_starter_credits, h]

theorem get_credits_append_grant_other (db : DB) (g : CreditGrant) (uid' : Nat)
    (h : g.user_id ≠ uid') :
    get_credits_by_user_id { db with credit_grants := db.credit_grants ++ [g] } uid'
      = get_credits_by_user_id db uid' := by
  have hb : (g.user_id == uid') = false := by simp [h]
  simp [get_credits_by_user_id, cvDiff, aiDiff, cvGrantSum, aiGrantSum,
    cvSpendSum, aiSpendSum, List.filter_append, hb]

/-- Claim C7: `grant_starter_credits` keys the starter bonus by the
per-user source `starter_grant:<user_id>`, so the first call for a user
inserts exactly one starter row and returns `True`, any call while that
row exists is a no-op returning `False` (hence at most one starter grant
per user ever), another user's balance is untouched by the grant, and a
second user with its own (distinct) starter source can still receive its
starter grant afterwards. -/
theorem C7_starter_grant_per_user (db : DB) (uid uid' : Nat)
    (h0 : sourceExists db (starterSource uid) = false) :
    (grant_starter_credits db uid).1 = true
    ∧ sourceCount (grant_starter_credits db uid).2 (starterSource uid) = 1
    ∧ grant_starter_credits (grant_starter_credits db uid).2 uid
        = (false, (grant_starter_credits db uid).2)
    ∧ (∀ d : DB, sourceExists d (starterSource uid) = true →
        grant_starter_credits d uid = (false, d))
    ∧ (uid' ≠ uid →
        get_credits_by_user_id (grant_starter_credits db uid).2 uid'
          = get_credits_by_user_id db uid')
    ∧ (starterSource uid' ≠ starterSource uid →
        sourceExists db (starterSource uid') = false →
        (grant_starter_credits (grant_starter_credits db uid).2 uid').1 = true) := by
  have hfresh := grant_starter_credits_fresh db uid h0
  have hafter : sourceExists (grant_starter_credits db uid).2 (starterSource uid) = true := by
    rw [hfresh, sourceExists_append]
    simp
  refine ⟨by rw [hfresh], ?_, ?_, fun d hd => grant_starter_credits_dup d uid hd, ?_, ?_⟩
  · rw [hfresh, sourceCount_append, sourceCount_of_not_exists db _ h0]
    simp
  · exact grant_starter_credits_dup _ uid hafter
  · intro hne
    rw [hfresh]
    exact get_credits_append_grant_other db _ uid' (by simpa using hne.symm)
  · intro hss hfresh'
    have : sourceExists (grant_starter_credits db uid).2 (starterSource uid') = false := by
      rw [hfresh, sourceExists_append, hfresh']
      simp [hss.symm]
    rw [grant_starter_credits_fresh _ uid' this]

/-- Witness for C7: on `starterDB 0` the starter grant for user 1 goes
through once, and user 2 (whose starter source is distinct) can still be
granted afterwards. -/
theorem C7_starter_grant_per_user_witness :
    sourceExists (starterDB 0) (starterSource 1) = false ∧
    (grant_starter_credits (starterDB 0) 1).1 = true ∧
    sourceCount (grant_starter_credits (starterDB 0) 1).2 (starterSource 1) = 1 ∧
    (grant_starter_credits (grant_starter_credits (starterDB 0) 1).2 2).1 = true :=
  ⟨by decide,
   (C7_starter_grant_per_user (starterDB 0) 1 2 (by decide)).1,
   (C7_starter_grant_per_user (starterDB 0) 1 2 (by decide)).2.1,
   (C7_starter_grant_per_user (starterDB 0) 1 2 (by decide)).2.2.2.2.2
     (by decide) (by decide)⟩

/-! ## Claim C8: propagation of database failures -/

/-- Claim C8 counterexample: a database failure injected into the insert
of `mark_event_processed` for a brand-new event id is caught by the
blanket `except Exception` and converted into the boolean `False` (the
duplicate-retry signal) after the rollback — the return type of the
model is `Bool × DB` precisely because the code can never let the
exception out, contradicting the claim that every mutating ledger
operation re-raises. -/
theorem C8_swallowed_failure_cex :
    (starterDB 0).stripe_events.contains "evt_1" = false
    ∧ mark_event_processed_faulty (starterDB 0) "evt_1" true = (false, starterDB 0) := by
  decide

/-- Claim C8 as amended: `spend_credits` rolls back and re-raises a
database failure raised at its insert (the caller sees the exception and
no state change), but `mark_event_processed` and `apply_referral_bonus`
catch every exception, roll back, and convert the failure into a `False`
return instead of re-raising it. -/
theorem C8_failure_propagation_amended (db : DB) (uid : Nat) (src : String) (cv ai : Int)
    (e c : String) (referee referrer : UserRow)
    (hu : userExists db uid = true)
    (hcv : cv ≤ (get_user_credits_ledger db uid).1)
    (hai : ai ≤ (get_user_credits_ledger db uid).2) :
    spend_credits_faulty db uid src cv ai true = .error .dbFailure
    ∧ (∀ (d : DB) (eid : String), mark_event_processed_faulty d eid true = (false, d))
    ∧ ((pyLower (pyStrip e) == "") = false →
        (pyUpper (pyStrip c) == "") = false →
        db.users.find? (fun u => pyLower u.email == pyLower (pyStrip e)) = some referee →
        db.users.find? (fun u => pyUpper u.referral_code == pyUpper (pyStrip c))
          = some referrer →
        referrer.referrals_count < REFERRAL_CAP →
        apply_referral_bonus_faulty db e c true = (false, db)) := by
  refine ⟨?_, fun d eid => by simp [mark_event_processed_faulty], ?_⟩
  · have h1 : ¬(cv > 0 ∧ (get_user_credits_ledger db uid).1 < cv) :=
      fun h => absurd hcv (not_le.mpr h.2)
    have h2 : ¬(ai > 0 ∧ (get_user_credits_ledger db uid).2 < ai) :=
      fun h => absurd hai (not_le.mpr h.2)
    simp only [spend_credits_faulty, hu, if_true, h1, h2, if_false, ite_false, ite_true]
  · intro he hc hre hrr hcap
    unfold apply_referral_bonus_faulty
    simp only [he, hc, Bool.or_self, Bool.false_eq_true, if_false, hre, hrr]
    rw [if_neg (not_le.mpr hcap)]
    simp

/-- Witness for the amended C8 on concrete states: the spend failure
propagates as an exception, the webhook dedup failure and the referral
failure come back as plain `False`. -/
theorem C8_failure_propagation_amended_witness :
    userExists (starterDB 5) 1 = true ∧
    ((1 : Int) ≤ (get_user_credits_ledger (starterDB 5) 1).1) ∧
    ((0 : Int) ≤ (get_user_credits_ledger (starterDB 5) 1).2) ∧
    spend_credits_faulty (starterDB 5) 1 "cv_generate" 1 0 true = .error .dbFailure ∧
    mark_event_processed_faulty (starterDB 5) "evt_1" true = (false, starterDB 5) :=
  ⟨by decide, by decide, by decide,
   (C8_failure_propagation_amended (starterDB 5) 1 "cv_generate" 1 0 "e" "c"
      ⟨1, "u@example.com", "CODE1", none, 0⟩ ⟨1, "u@example.com", "CODE1", none, 0⟩
      (by decide) (by decide) (by decide)).1,
   (C8_failure_propagation_amended (starterDB 5) 1 "cv_generate" 1 0 "e" "c"
      ⟨1, "u@example.com", "CODE1", none, 0⟩ ⟨1, "u@example.com", "CODE1", none, 0⟩
      (by decide) (by decide) (by decide)).2.1 (starterDB 5) "evt_1"⟩

/-! ## Normalization lemmas

`checkout_body` hands `credits_for_plan` a pack string that is already
stripped and lowercased, and `credits_for_plan` strips and lowercases
again; the lemmas below show the normalization is idempotent, so the
hypotheses of claim C10 speak about the singly-normalized string. -/

theorem char_toNat_ofNat_valid (n : Nat) (h : n.isValidChar) :
    (Char.ofNat n).toNat = n := by
  rw [Char.ofNat, dif_pos h]
  rfl

theorem isWhitespace_eq_false_of_ge (c : Char) (h : 65 ≤ c.toNat) :
    c.isWhitespace = false := by
  have h1 : c ≠ ' ' := by rintro rfl; exact absurd h (by decide)
  have h2 : c ≠ '\t' := by rintro rfl; exact absurd h (by decide)
  have h3 : c ≠ '\r' := by rintro rfl; exact absurd h (by decide)
  have h4 : c ≠ '\n' := by rintro rfl; exact absurd h (by decide)
  simp [Char.isWhitespace, h1, h2, h3, h4]

theorem toLower_isWhitespace (c : Char) :
    (Char.toLower c).isWhitespace = c.isWhitespace := by
  by_cases h : 65 ≤ c.toNat ∧ c.toNat ≤ 90
  · have h1 : Char.toLower c = Char.ofNat (c.toNat + 32) := by
      simp only [Char.toLower]
      rw [if_pos h]
    have hv : (Char.ofNat (c.toNat + 32)).toNat = c.toNat + 32 :=
      char_toNat_ofNat_valid _ (Or.inl (by omega))
    rw [h1, isWhitespace_eq_false_of_ge _ (by omega),
      isWhitespace_eq_false_of_ge c (by omega)]
  · have h1 : Char.toLower c = c := by
      simp only [Char.toLower]
      rw [if_neg h]
    rw [h1]

theorem toLower_toLower (c : Char) :
    Char.toLower (Char.toLower c) = Char.toLower c := by
  by_cases h : 65 ≤ c.toNat ∧ c.toNat ≤ 90
  · have h1 : Char.toLower c = Char.ofNat (c.toNat + 32) := by
      simp only [Char.toLower]
      rw [if_pos h]
    have hv : (Char.ofNat (c.toNat + 32)).toNat = c.toNat + 32 :=
      char_toNat_ofNat_valid _ (Or.inl (by omega))
    rw [h1]
    simp only [Char.toLower]
    rw [if_neg (by rw [hv]; omega)]
  · have h1 : Char.toLower c = c := by
      simp only [Char.toLower]
      rw [if_neg h]
    rw [h1, h1]

theorem stripL_eq_rdropWhile (d : List Char) :
    stripL d = List.rdropWhile Char.isWhitespace (d.dropWhile Char.isWhitespace) := rfl

theorem dropWhile_stripL (d : List Char) :
    (stripL d).dropWhile Char.isWhitespace = stripL d := by
  rw [stripL_eq_rdropWhile]
  rcases heq : List.rdropWhile Char.isWhitespace (d.dropWhile Char.isWhitespace)
    with _ | ⟨c, t⟩
  · simp
  · obtain ⟨t2, ht⟩ :=
      List.rdropWhile_prefix Char.isWhitespace (d.dropWhile Char.isWhitespace)
    rw [heq] at ht
    have h0 := List.head?_dropWhile_not Char.isWhitespace d
    rw [← ht] at h0
    have hw : Char.isWhitespace c = false := by simpa using h0
    simp [List.dropWhile_cons, hw]

theorem stripL_idem (d : List Char) : stripL (stripL d) = stripL d := by
  rw [show stripL (stripL d)
      = List.rdropWhile Char.isWhitespace ((stripL d).dropWhile Char.isWhitespace) from rfl]
  rw [dropWhile_stripL, stripL_eq_rdropWhile]
  exact List.rdropWhile_idempotent _ _

theorem stripL_map_toLower (d : List Char) :
    stripL (d.map Char.toLower) = (stripL d).map Char.toLower := by
  have hfun : (Char.isWhitespace ∘ Char.toLower) = Char.isWhitespace :=
    funext toLower_isWhitespace
  simp only [stripL, List.dropWhile_map, hfun, ← List.map_reverse]

theorem pyLower_pyLower (s : String) : pyLower (pyLower s) = pyLower s := by
  have h : Char.toLower ∘ Char.toLower = Char.toLower := funext toLower_toLower
  show String.mk ((s.data.map Char.toLower).map Char.toLower)
    = String.mk (s.data.map Char.toLower)
  rw [List.map_map, h]

theorem pyStrip_pyLower (s : String) : pyStrip (pyLower s) = pyLower (pyStrip s) := by
  show String.mk (stripL (s.data.map Char.toLower))
    = String.mk ((stripL s.data).map Char.toLower)
  rw [stripL_map_toLower]

theorem pyStrip_pyStrip (s : String) : pyStrip (pyStrip s) = pyStrip s := by
  show String.mk (stripL (stripL s.data)) = String.mk (stripL s.data)
  rw [stripL_idem]

theorem pyNorm_idem (s : String) :
    pyLower (pyStrip (pyLower (pyStrip s))) = pyLower (pyStrip s) := by
  rw [pyStrip_pyLower, pyStrip_pyStrip, pyLower_pyLower]

/-! ## Claim C10: unrecognized packs on the checkout webhook -/

/-- Claim C10 (implicit): `credits_for_plan` maps every stripped,
lowercased plan other than `monthly` and `pro` to `(0, 0)`, and the
`checkout.session.completed` branch still inserts a grant row — carrying
zero cv and zero ai credits — for such a pack and still answers with the
success response. -/
theorem C10_unknown_pack_zero_grant (db : DB) (eid sid pack email : String) (uid : Nat)
    (heid : (eid == "") = false)
    (hfresh : db.stripe_events.contains eid = false)
    (hpack0 : (pyLower (pyStrip pack) == "") = false)
    (hpm : (pyLower (pyStrip pack) == "monthly") = false)
    (hpp : (pyLower (pyStrip pack) == "pro") = false)
    (hemail0 : (pyLower (pyStrip email) == "") = false)
    (huser : get_or_create_user_id db (pyLower (pyStrip email)) = some uid)
    (hsrc : sourceExists db ("stripe_checkout:" ++ sid) = false) :
    credits_for_plan pack = (0, 0)
    ∧ stripe_webhook_checkout db eid sid pack email
        = (WebhookResult.checkoutGranted true,
           { db with stripe_events := db.stripe_events ++ [eid],
                     credit_grants := db.credit_grants ++
                       [⟨uid, "stripe_checkout:" ++ sid, 0, 0, none⟩] }) := by
  have hplan : credits_for_plan pack = (0, 0) := by
    unfold credits_for_plan
    simp only [hpm, hpp, Bool.false_eq_true, if_false]
  refine ⟨hplan, ?_⟩
  unfold stripe_webhook_checkout
  simp only [heid, Bool.false_eq_true, if_false]
  rw [mark_event_processed_fresh db eid hfresh]
  simp only [if_true]
  unfold checkout_body
  simp only [hpack0, hemail0, Bool.false_eq_true, if_false]
  have huser1 : get_or_create_user_id
      { db with stripe_events := db.stripe_events ++ [eid] } (pyLower (pyStrip email))
      = some uid := huser
  rw [huser1]
  have hsrc1 : sourceExists { db with stripe_events := db.stripe_events ++ [eid] }
      ("stripe_checkout:" ++ sid) = false := hsrc
  have hplan2 : credits_for_plan (pyLower (pyStrip pack)) = (0, 0) := by
    unfold credits_for_plan
    rw [pyNorm_idem]
    simp only [hpm, hpp, Bool.false_eq_true, if_false]
  dsimp only
  rw [hplan2]
  rw [insert_credit_grant_fresh _ uid ("stripe_checkout:" ++ sid) 0 0 none hsrc1]

/-- Witness for C10: the unknown pack `" Gold "` on a fresh checkout
event for user 1 of `starterDB 0` yields a zero-amount grant row and the
success response. -/
theorem C10_unknown_pack_zero_grant_witness :
    (("evt_9" == "") = false) ∧
    (starterDB 0).stripe_events.contains "evt_9" = false ∧
    get_or_create_user_id (starterDB 0) (pyLower (pyStrip "u@example.com")) = some 1 ∧
    sourceExists (starterDB 0) ("stripe_checkout:" ++ "cs_1") = false ∧
    (credits_for_plan " Gold " = (0, 0)
     ∧ stripe_webhook_checkout (starterDB 0) "evt_9" "cs_1" " Gold " "u@example.com"
         = (WebhookResult.checkoutGranted true,
            { starterDB 0 with stripe_events := (starterDB 0).stripe_events ++ ["evt_9"],
                               credit_grants := (starterDB 0).credit_grants ++
                                 [⟨1, "stripe_checkout:" ++ "cs_1", 0, 0, none⟩] })) :=
  ⟨by decide, by decide, by decide, by decide,
   C10_unknown_pack_zero_grant (starterDB 0) "evt_9" "cs_1" " Gold " "u@example.com" 1
     (by decide) (by decide) (by decide) (by decide) (by decide) (by decide)
     (by decide) (by decide)⟩

end CvBuilder
